import Mathlib

/-!
Verification of `chainer/training/triggers/once_trigger.py`.

The Python class `OnceTrigger` holds two boolean instance attributes,
`_flag_first` and `_flag_resumed`.  We embed the object state as a
structure with those two fields, the methods as pure functions taking
and returning the state, and the trainer argument of `trigger` as a
value of an arbitrary type (the method never inspects it).
-/

/-- Object state of `OnceTrigger`: the attributes `_flag_first` and
`_flag_resumed` set up by `__init__`. -/
structure OnceTrigger where
  flag_first : Bool
  flag_resumed : Bool
  deriving DecidableEq, Repr

/-- `__init__(self, call_on_resume=False)`: sets `_flag_first = True` and
`_flag_resumed = call_on_resume`. -/
def OnceTrigger.init (call_on_resume : Bool) : OnceTrigger :=
  { flag_first := true, flag_resumed := call_on_resume }

/-- Property `finished`: `not (self._flag_first or self._flag_resumed)`. -/
def OnceTrigger.finished (t : OnceTrigger) : Bool :=
  !(t.flag_first || t.flag_resumed)

/-- Method `trigger(self, trainer)`: computes `flag = not self.finished`,
then sets `_flag_resumed = False` and `_flag_first = False`, and returns
`flag`.  Returns the value together with the updated state. -/
def OnceTrigger.trigger {α : Type} (t : OnceTrigger) (_trainer : α) : Bool × OnceTrigger :=
  let flag := ! t.finished
  (flag, { t with flag_resumed := false, flag_first := false })

/-- Method `serialize(self, serializer)`:
`self._flag_first = serializer("_flag_first", self._flag_first)`.
The serializer is an external key/value callback. -/
def OnceTrigger.serialize (t : OnceTrigger) (serializer : String → Bool → Bool) : OnceTrigger :=
  { t with flag_first := serializer "_flag_first" t.flag_first }

/-- Run a sequence of `trigger` calls (given by the list of their trainer
arguments), keeping only the final state. -/
def OnceTrigger.triggerMany {α : Type} : OnceTrigger → List α → OnceTrigger
  | t, [] => t
  | t, a :: as => ((t.trigger a).snd).triggerMany as

/-- An operation performed on a live trigger object: either a `trigger`
call with some trainer argument, or a `serialize` call with some
serializer callback. -/
inductive TriggerOp (α : Type) where
  | trig (trainer : α)
  | ser (serializer : String → Bool → Bool)

/-- Run a sequence of operations on a trigger, keeping only the state. -/
def OnceTrigger.run {α : Type} : OnceTrigger → List (TriggerOp α) → OnceTrigger
  | t, [] => t
  | t, TriggerOp.trig a :: ops => ((t.trigger a).snd).run ops
  | t, TriggerOp.ser s :: ops => (t.serialize s).run ops

/-- An operation that does not restore `_flag_first` to true when applied
to a trigger whose flags are both cleared: a `trigger` call always
qualifies, and a `serialize` call qualifies when its serializer maps the
stored value `false` back to `false`. -/
def TriggerOp.preservesCleared {α : Type} : TriggerOp α → Prop
  | TriggerOp.trig _ => True
  | TriggerOp.ser s => s "_flag_first" false = false

theorem OnceTrigger.triggerMany_cleared {α : Type} (as : List α) :
    OnceTrigger.triggerMany ⟨false, false⟩ as = ⟨false, false⟩ := by
  induction as with
  | nil => rfl
  | cons a as ih => exact ih

theorem OnceTrigger.run_cleared {α : Type} (ops : List (TriggerOp α))
    (h : ∀ op ∈ ops, TriggerOp.preservesCleared op) :
    OnceTrigger.run ⟨false, false⟩ ops = ⟨false, false⟩ := by
  induction ops with
  | nil => rfl
  | cons op ops ih =>
    cases op with
    | trig a =>
      exact ih (fun op hop => h op (List.mem_cons_of_mem _ hop))
    | ser s =>
      have hs : s "_flag_first" false = false := h _ (List.mem_cons_self _ _)
      show OnceTrigger.run ⟨s "_flag_first" false, false⟩ ops = ⟨false, false⟩
      rw [hs]
      exact ih (fun op hop => h op (List.mem_cons_of_mem _ hop))

/-- Claim C1: for a freshly constructed trigger with
`call_on_resume = false`, `finished` is false before the first `trigger`
call, the first call returns true and leaves `finished` true, and every
subsequent call (after any further number of calls) returns false. -/
theorem OnceTrigger.default_fires_exactly_once {α : Type} (a b : α) (rest : List α) :
    (OnceTrigger.init false).finished = false
    ∧ ((OnceTrigger.init false).trigger a).fst = true
    ∧ (((OnceTrigger.init false).trigger a).snd).finished = true
    ∧ (((((OnceTrigger.init false).trigger a).snd).triggerMany rest).trigger b).fst = false := by
  refine ⟨rfl, rfl, rfl, ?_⟩
  have h : (((OnceTrigger.init false).trigger a).snd) = (⟨false, false⟩ : OnceTrigger) := rfl
  rw [h, OnceTrigger.triggerMany_cleared]
  rfl

/-- Claim C2: for a trigger constructed with `call_on_resume = true` and
no intervening serialization, the first `trigger` call returns true and
every subsequent call returns false. -/
theorem OnceTrigger.resume_config_fires_once {α : Type} (a b : α) (rest : List α) :
    ((OnceTrigger.init true).trigger a).fst = true
    ∧ (((((OnceTrigger.init true).trigger a).snd).triggerMany rest).trigger b).fst = false := by
  refine ⟨rfl, ?_⟩
  have h : (((OnceTrigger.init true).trigger a).snd) = (⟨false, false⟩ : OnceTrigger) := rfl
  rw [h, OnceTrigger.triggerMany_cleared]
  rfl

/-- Claim C3, counterexample: `finished` is NOT permanently true across
every subsequent operation on the object.  After one `trigger` call on a
default trigger, a `serialize` call whose serializer restores
`_flag_first` to true makes `finished` false again. -/
theorem OnceTrigger.finished_not_permanent_under_serialize :
    (((((OnceTrigger.init false).trigger ()).snd).serialize (fun _ _ => true)).finished) = false :=
  rfl

/-- Claim C3, amended: after any `trigger` call both flags are false, and
`finished` is true and remains true across every subsequent `trigger`
call; it can become false again only through a `serialize` call whose
serializer restores `_flag_first` to true. -/
theorem OnceTrigger.finished_permanent_under_trigger_calls {α : Type} (t : OnceTrigger) (a : α)
    (rest : List α) :
    ((t.trigger a).snd).flag_first = false
    ∧ ((t.trigger a).snd).flag_resumed = false
    ∧ ((t.trigger a).snd).finished = true
    ∧ (((t.trigger a).snd).triggerMany rest).finished = true := by
  refine ⟨rfl, rfl, rfl, ?_⟩
  have h : ((t.trigger a).snd) = (⟨false, false⟩ : OnceTrigger) := rfl
  rw [h, OnceTrigger.triggerMany_cleared]
  rfl

/-- Claim C4: every `trigger` call, from any state and with any trainer
argument, leaves both `_flag_first` and `_flag_resumed` false, regardless
of the returned value. -/
theorem OnceTrigger.trigger_clears_both_flags {α : Type} (t : OnceTrigger) (a : α) :
    ((t.trigger a).snd).flag_first = false ∧ ((t.trigger a).snd).flag_resumed = false :=
  ⟨rfl, rfl⟩

/-- Claim C5: for every state, `finished` returns true iff both flags are
false.  (In this embedding `finished` is a pure function of the state, as
the Python property performs no assignment.) -/
theorem OnceTrigger.finished_iff_flags_false (t : OnceTrigger) :
    t.finished = true ↔ (t.flag_first = false ∧ t.flag_resumed = false) := by
  cases t with
  | mk f r => cases f <;> cases r <;> simp [OnceTrigger.finished]

/-- Claim C6: for every state and every serializer, `serialize` leaves
`_flag_resumed` unchanged and replaces `_flag_first` by exactly the
serializer applied to the key and the current `_flag_first`; nothing else
is passed to the serializer. -/
theorem OnceTrigger.serialize_only_touches_flag_first (t : OnceTrigger)
    (s : String → Bool → Bool) :
    ((t.serialize s).flag_resumed = t.flag_resumed)
    ∧ ((t.serialize s).flag_first = s "_flag_first" t.flag_first) :=
  ⟨rfl, rfl⟩

/-- Claim C7: serialization round-trip.  Saving `_flag_first` from any
trigger `t` and restoring that value into a freshly constructed default
trigger makes the next `trigger` call return exactly the saved value:
true when `t` had `_flag_first = true`, false when it had
`_flag_first = false`. -/
theorem OnceTrigger.serialize_roundtrip {α : Type} (t : OnceTrigger) (a : α) :
    (((OnceTrigger.init false).serialize (fun _ _ => t.flag_first)).trigger a).fst
      = t.flag_first := by
  cases t with
  | mk f r => cases f <;> rfl

/-- Claim C8: once `trigger` has been called at least once, no later
`trigger` call returns true as long as every intervening operation
(further `trigger` calls, and `serialize` calls whose serializer does not
restore `_flag_first` to true) preserves the cleared flags; in particular
with no intervening operations, a second call always returns false. -/
theorem OnceTrigger.no_rearm_without_restoring_flag_first {α β : Type}
    (t : OnceTrigger) (a : α) (b : β) (ops : List (TriggerOp β))
    (h : ∀ op ∈ ops, TriggerOp.preservesCleared op) :
    ((((t.trigger a).snd).run ops).trigger b).fst = false := by
  have hsnd : ((t.trigger a).snd) = (⟨false, false⟩ : OnceTrigger) := rfl
  rw [hsnd, OnceTrigger.run_cleared ops h]
  rfl

/-- Witness for claim C8 at a concrete input: a default trigger is fired
once, then serialized with a serializer mapping false to false, and the
next call returns false. -/
theorem OnceTrigger.no_rearm_without_restoring_flag_first_witness :
    (((((OnceTrigger.init false).trigger (0 : Nat)).snd).run
        ([TriggerOp.ser (fun _ _ => false)] : List (TriggerOp Nat))).trigger (0 : Nat)).fst = false :=
  OnceTrigger.no_rearm_without_restoring_flag_first (OnceTrigger.init false) 0 0
    ([TriggerOp.ser (fun _ _ => false)] : List (TriggerOp Nat))
    (by
      intro op hop
      rw [List.mem_singleton] at hop
      subst hop
      exact rfl)

/-- Claim C9: a newly constructed trigger with `call_on_resume = true`
whose `serialize` hook restores `_flag_first` to false (a resume from a
snapshot taken after the original first firing) still returns true on its
first `trigger` call. -/
theorem OnceTrigger.resume_restore_fires_again {α : Type} (a : α) :
    ((((OnceTrigger.init true).serialize (fun _ _ => false)).trigger a).fst) = true :=
  rfl

/-- Claim C10: `trigger` ignores its trainer argument.  For any state and
any two trainer arguments, of possibly different types, the returned value
and the resulting state coincide. -/
theorem OnceTrigger.trigger_ignores_trainer {α β : Type} (t : OnceTrigger) (a : α) (b : β) :
    (t.trigger a).fst = (t.trigger b).fst ∧ (t.trigger a).snd = (t.trigger b).snd :=
  ⟨rfl, rfl⟩
